import Mathlib

/-!
Verification of the display-abstraction and coordinate-scaling subsystem of
`computer_use_demo/tools/computer.py` (the `computer_use_ootb` repository).

The Python source is shallowly embedded: pure fragments become Lean functions
over `ℕ`/`ℤ`/`ℚ` (Python float arithmetic on small ratios is modelled by exact
rational arithmetic, and Python's banker rounding `round` by `pyRound`);
code that raises exceptions returns `Except`; the action dispatcher
`ComputerTool.__call__` is modelled as a state-passing function that also
records the backend calls it would issue as a trace.
-/

set_option maxRecDepth 100000

namespace ComputerUseOotb

/-- Decidable equality for `Except`, used to evaluate the embedded functions
on concrete inputs. -/
instance {ε α : Type} [DecidableEq ε] [DecidableEq α] : DecidableEq (Except ε α) := fun a b =>
  match a, b with
  | .error e₁, .error e₂ =>
    match decEq e₁ e₂ with
    | isTrue h => isTrue (by rw [h])
    | isFalse h => isFalse (fun hc => by cases hc; exact h rfl)
  | .error _, .ok _ => isFalse (fun hc => by cases hc)
  | .ok _, .error _ => isFalse (fun hc => by cases hc)
  | .ok a₁, .ok a₂ =>
    match decEq a₁ a₂ with
    | isTrue h => isTrue (by rw [h])
    | isFalse h => isFalse (fun hc => by cases hc; exact h rfl)

/-- Resolution, from the `Resolution` dataclass in computer.py. -/
structure Resolution where
  width : ℕ
  height : ℕ
deriving DecidableEq

/-- The `ScalingSource` enum of computer.py. -/
inductive ScalingSource where
  | COMPUTER
  | API
deriving DecidableEq

/-- The XGA entry of `MAX_SCALING_TARGETS`. -/
def XGAres : Resolution := ⟨1024, 768⟩

/-- The WXGA entry of `MAX_SCALING_TARGETS` (also the fallback default). -/
def WXGAres : Resolution := ⟨1280, 800⟩

/-- The FWXGA entry of `MAX_SCALING_TARGETS`. -/
def FWXGAres : Resolution := ⟨1366, 768⟩

/-- The `MAX_SCALING_TARGETS` dict of computer.py, in its insertion
(= iteration) order. -/
def MAX_SCALING_TARGETS : List (String × Resolution) :=
  [("XGA", XGAres), ("WXGA", WXGAres), ("FWXGA", FWXGAres)]

/-- The aspect-tolerance test of `scale_coordinates`:
`abs(dimension.width / dimension.height - ratio) < 0.02` where
`ratio = self.width / self.height`. -/
def aspectClose (d : Resolution) (w h : ℕ) : Prop :=
  |(d.width : ℚ) / (d.height : ℚ) - (w : ℚ) / (h : ℚ)| < 2 / 100

instance (d : Resolution) (w h : ℕ) : Decidable (aspectClose d w h) := by
  unfold aspectClose
  infer_instance

/-- The target-selection loop of `scale_coordinates`: scan
`MAX_SCALING_TARGETS` in order and `break` at the first aspect-ratio match;
the matching entry is assigned as the target only when additionally
`dimension.width < self.width`; if no target was assigned, fall back to
`MAX_SCALING_TARGETS["WXGA"]`. -/
def selectTargetDimension (w h : ℕ) : Resolution :=
  match MAX_SCALING_TARGETS.find? (fun p => decide (aspectClose p.2 w h)) with
  | some p => if p.2.width < w then p.2 else WXGAres
  | none => WXGAres

/-- Python's built-in `round`: round to the nearest integer, ties to the even
integer (banker rounding), here on exact rationals. -/
def pyRound (q : ℚ) : ℤ :=
  if q - (⌊q⌋ : ℚ) < 1 / 2 then ⌊q⌋
  else if 1 / 2 < q - (⌊q⌋ : ℚ) then ⌊q⌋ + 1
  else if ⌊q⌋ % 2 = 0 then ⌊q⌋ else ⌊q⌋ + 1

/-- The `ComputerTool.scale_coordinates` method.  `w`, `h` are `self.width`,
`self.height` (the selected display's native resolution) and
`scalingEnabled` is `self._scaling_enabled`.  A raised `ToolError` is an
`Except.error` carrying the message. -/
def scale_coordinates (scalingEnabled : Bool) (w h : ℕ) (source : ScalingSource)
    (x y : ℤ) : Except String (ℤ × ℤ) :=
  if !scalingEnabled then .ok (x, y)
  else
    let td := selectTargetDimension w h
    let xFactor : ℚ := (td.width : ℚ) / (w : ℚ)
    let yFactor : ℚ := (td.height : ℚ) / (h : ℚ)
    match source with
    | .API =>
      if (w : ℤ) < x ∨ (h : ℤ) < y then
        .error s!"Coordinates {x}, {y} are out of bounds"
      else
        .ok (pyRound ((x : ℚ) / xFactor), pyRound ((y : ℚ) / yFactor))
    | .COMPUTER =>
      .ok (pyRound ((x : ℚ) * xFactor), pyRound ((y : ℚ) * yFactor))

/-- The `ScreenType` enum of computer.py. -/
inductive ScreenType where
  | MONITOR
  | ADB
deriving DecidableEq

/-- The `Screen` dataclass of computer.py.  Fields that the Python code
leaves as `None` on some variants are modelled with `Option`. -/
structure Screen where
  index : ℕ
  name : Option String
  type_ : ScreenType
  size : Resolution
  layout : Option String
  position : Option String
deriving DecidableEq

/-- One native monitor as reported by `screeninfo.get_monitors()`:
position, size and the OS primary flag. -/
structure Monitor where
  x : ℤ
  y : ℤ
  width : ℕ
  height : ℕ
  is_primary : Bool
deriving DecidableEq

/-- One ADB device as reported by `adbutils` (`serialno` and
`window_size()`). -/
structure AdbDeviceInfo where
  serialno : String
  width : ℕ
  height : ℕ
deriving DecidableEq

/-- The sort key of `get_screen_details`: `sorted(screens, key=lambda s: s.x)`
(Python `sorted` is stable, as is insertion sort). -/
def monitorLE (a b : Monitor) : Prop := a.x ≤ b.x

instance : DecidableRel monitorLE := fun a b => by
  unfold monitorLE
  infer_instance

/-- Layout-role assignment of the enumeration loop of `get_screen_details`:
index 0 is "Left", the last index is "Right", everything else "Center"
(a single monitor takes the first branch, hence "Left"). -/
def layoutFor (i n : ℕ) : String :=
  if i = 0 then "Left" else if i = n - 1 then "Right" else "Center"

/-- The `get_screen_details` function of computer.py.  The two external
queries — `screeninfo.get_monitors()` and the ADB endpoint's
`device_list()` — are inputs, each modelled as `Except` because either
query may raise; the Python function installs no handler, so an exception
from either propagates. -/
def get_screen_details (monitorsE : Except String (List Monitor))
    (adbE : Except String (List AdbDeviceInfo)) : Except String (List Screen × ℕ) :=
  match monitorsE with
  | .error e => .error e
  | .ok monitors =>
    let sorted := monitors.insertionSort monitorLE
    let n := sorted.length
    let native := sorted.enum.map fun p =>
      ({ index := p.1, name := none, type_ := .MONITOR,
         size := ⟨p.2.width, p.2.height⟩,
         layout := some (layoutFor p.1 n),
         position := some (if p.2.is_primary then "Primary" else "Secondary") } : Screen)
    let primaryIdx := sorted.enum.foldl (fun acc p => if p.2.is_primary then p.1 else acc) 0
    match adbE with
    | .error e => .error e
    | .ok devices =>
      let remote := devices.map fun d =>
        ({ index := 0, name := some d.serialno, type_ := .ADB,
           size := ⟨d.width, d.height⟩, layout := none, position := none } : Screen)
      .ok (native ++ remote, primaryIdx)

/-- One backend call the dispatcher would issue (pyautogui / ADB side
effects), recorded as a trace element. -/
inductive BackendCall where
  | moveTo (x y : ℤ)
  | dragTo (x y : ℤ)
  | cursorQuery
  | click
  | swipe (x1 y1 x2 y2 : ℤ)
  | shellCmd (cmd : String)
  | sendKeys (t : String)
  | typewrite (t : String)
  | keyDown (k : String)
  | keyUp (k : String)
  | screenshotCall
deriving DecidableEq

/-- The observable outcome of one `ComputerTool.__call__` invocation:
a `ToolResult(output=...)`, a `ToolResult` whose output is accompanied by a
screenshot (the `type` action), the screenshot action's image result, a
raised `ToolError`, or a raised non-`ToolError` Python exception. -/
inductive DispatchOutcome where
  | result (output : String)
  | resultWithImage (output : String)
  | screenshotTaken
  | toolError (msg : String)
  | pyError (msg : String)
deriving DecidableEq

/-- Per-instance configuration of a `ComputerTool`: which backend variant is
bound (`_adb_device is not None`), the `_scaling_enabled` flag, the selected
display's native resolution, the capture offsets, the value
`pyautogui.position()` would report, and an injected-failure model for
`pyautogui.keyDown` (the external call may raise). -/
structure ToolConfig where
  isADB : Bool
  scalingEnabled : Bool
  width : ℕ
  height : ℕ
  offsetX : ℤ
  offsetY : ℤ
  nativePos : ℤ × ℤ
  keyDownFails : String → Bool

/-- The `key_conversion` alias table of `ComputerTool.__init__`. -/
def key_conversion (k : String) : String :=
  if k = "Page_Down" then "pagedown"
  else if k = "Page_Up" then "pageup"
  else if k = "Super_L" then "win"
  else k

/-- Per-key transformation of the desktop `key` branch:
`self.key_conversion.get(key.strip(), key.strip())` then `.lower()`. -/
def convKey (k : String) : String := (key_conversion k.trim).toLower

/-- The desktop key-down loop of the `key` action: press each key in order
with `pyautogui.keyDown`; if an injection raises, the loop aborts with the
keys pressed so far still down.  Returns the calls issued and whether the
loop completed. -/
def pressKeysNative (fails : String → Bool) : List String → List BackendCall × Bool
  | [] => ([], true)
  | k :: rest =>
    let kk := convKey k
    if fails kk then ([], false)
    else
      let r := pressKeysNative fails rest
      (.keyDown kk :: r.1, r.2)

/-- Keys still held down after a trace of backend calls: each `keyDown`
pushes, each `keyUp` releases one matching held key. -/
def heldKeys (tr : List BackendCall) : List String :=
  tr.foldl (fun acc c =>
    match c with
    | .keyDown k => acc ++ [k]
    | .keyUp k => acc.erase k
    | _ => acc) []

/-- The `ComputerTool.__call__` dispatcher.  `st` is the tracked
`_adb_mouse` position; the result is the outcome, the new `_adb_mouse`, and
the trace of backend calls issued.  The ADB `left_click_drag` branch mirrors
the source faithfully: its `return` statement reads `current_x`/`current_y`,
which only the desktop branch assigns, so Python raises an
`UnboundLocalError` there (after the swipe was already issued). -/
def toolCall (cfg : ToolConfig) (st : ℤ × ℤ) (action : String)
    (text : Option String) (coordinate : Option (List ℤ)) :
    DispatchOutcome × (ℤ × ℤ) × List BackendCall :=
  if action = "mouse_move" ∨ action = "left_click_drag" then
    match coordinate with
    | none => (.toolError s!"coordinate is required for {action}", st, [])
    | some c =>
      if text.isSome then (.toolError s!"text is not accepted for {action}", st, [])
      else
        match c with
        | [cx, cy] =>
          if ¬(0 ≤ cx ∧ 0 ≤ cy) then
            (.toolError s!"{c} must be a tuple of non-negative ints", st, [])
          else
            match scale_coordinates cfg.scalingEnabled cfg.width cfg.height .API cx cy with
            | .error e => (.toolError e, st, [])
            | .ok p =>
              let x := p.1 + cfg.offsetX
              let y := p.2 + cfg.offsetY
              if action = "mouse_move" then
                if cfg.isADB then (.result s!"Moved mouse to ({x}, {y})", (x, y), [])
                else (.result s!"Moved mouse to ({x}, {y})", st, [.moveTo x y])
              else
                if cfg.isADB then
                  (.pyError ("UnboundLocalError: local variable current_x referenced before assignment"),
                    (x, y), [.swipe st.1 st.2 x y])
                else
                  let cx := cfg.nativePos.1
                  let cy := cfg.nativePos.2
                  (.result s!"Dragged mouse from ({cx}, {cy}) to ({x}, {y})",
                    st, [.cursorQuery, .dragTo x y])
        | _ => (.toolError s!"{c} must be a tuple of length 2", st, [])
  else if action = "key" ∨ action = "type" then
    match text with
    | none => (.toolError s!"text is required for {action}", st, [])
    | some t =>
      if coordinate.isSome then (.toolError s!"coordinate is not accepted for {action}", st, [])
      else if action = "key" then
        let keys := t.splitOn "+"
        if cfg.isADB then
          (.result s!"Pressed keys: {t}", st,
            keys.map (fun _ => .shellCmd ("input keyevent " ++ String.intercalate " " keys)))
        else
          let downs := pressKeysNative cfg.keyDownFails keys
          if downs.2 then
            (.result s!"Pressed keys: {t}", st,
              downs.1 ++ keys.reverse.map (fun k => BackendCall.keyUp (convKey k)))
          else
            (.pyError ("keyDown failed"), st, downs.1)
      else
        if cfg.isADB then (.resultWithImage t, st, [.sendKeys t, .screenshotCall])
        else (.resultWithImage t, st, [.typewrite t, .screenshotCall])
  else if action = "left_click" ∨ action = "right_click" ∨ action = "double_click" ∨
      action = "middle_click" ∨ action = "screenshot" ∨ action = "cursor_position" then
    if text.isSome then (.toolError s!"text is not accepted for {action}", st, [])
    else if coordinate.isSome then (.toolError s!"coordinate is not accepted for {action}", st, [])
    else if action = "screenshot" then (.screenshotTaken, st, [.screenshotCall])
    else if action = "cursor_position" then
      let p := if cfg.isADB then st else cfg.nativePos
      let tr : List BackendCall := if cfg.isADB then [] else [.cursorQuery]
      match scale_coordinates cfg.scalingEnabled cfg.width cfg.height .COMPUTER p.1 p.2 with
      | .error e => (.toolError e, st, tr)
      | .ok q =>
        let qx := q.1
        let qy := q.2
        (.result s!"X={qx},Y={qy}", st, tr)
    else if action = "left_click" then
      if cfg.isADB then
        let sx := st.1
        let sy := st.2
        (.result ("Performed left_click"), st, [.shellCmd s!"input tap {sx} {sy}"])
      else (.result ("Performed left_click"), st, [.click])
    else (.toolError s!"{action} not supported for ADB devices", st, [])
  else (.toolError s!"Invalid action: {action}", st, [])

/-! ## Supporting lemmas -/

/-- Banker rounding is within half a unit of its argument. -/
theorem pyRound_near (q : ℚ) : |(pyRound q : ℚ) - q| ≤ 1 / 2 := by
  have hfl : (⌊q⌋ : ℚ) ≤ q := Int.floor_le q
  have hfu : q < (⌊q⌋ : ℚ) + 1 := Int.lt_floor_add_one q
  unfold pyRound
  by_cases h1 : q - (⌊q⌋ : ℚ) < 1 / 2
  · rw [if_pos h1, abs_le]
    constructor <;> linarith
  · rw [if_neg h1]
    by_cases h2 : 1 / 2 < q - (⌊q⌋ : ℚ)
    · rw [if_pos h2]
      push_cast
      rw [abs_le]
      constructor <;> linarith
    · rw [if_neg h2]
      have he : q - (⌊q⌋ : ℚ) = 1 / 2 := le_antisymm (not_lt.mp h2) (not_lt.mp h1)
      by_cases h3 : ⌊q⌋ % 2 = 0
      · rw [if_pos h3, abs_le]
        constructor <;> linarith
      · rw [if_neg h3]
        push_cast
        rw [abs_le]
        constructor <;> linarith

/-- One axis of the scaling round trip: with a target/native factor strictly
between one half and one, the scaled-down coordinate passes the API bounds
check and scales back to within one unit of the original. -/
theorem axis_bound (t w : ℕ) (x : ℤ) (hw : 0 < w) (ht1 : t ≤ w) (ht2 : w < 2 * t)
    (hx0 : 0 ≤ x) (hx : x < (w : ℤ)) :
    pyRound ((x : ℚ) * ((t : ℚ) / (w : ℚ))) ≤ (w : ℤ) ∧
    |pyRound ((pyRound ((x : ℚ) * ((t : ℚ) / (w : ℚ))) : ℚ) / ((t : ℚ) / (w : ℚ))) - x| ≤ 1 := by
  have hwQ : (0 : ℚ) < (w : ℚ) := by exact_mod_cast hw
  have htw : (t : ℚ) ≤ (w : ℚ) := by exact_mod_cast ht1
  have h2t : (w : ℚ) < 2 * (t : ℚ) := by exact_mod_cast ht2
  set f : ℚ := (t : ℚ) / (w : ℚ) with hf
  have hf1 : 1 / 2 < f := by
    rw [hf, lt_div_iff₀ hwQ]
    linarith
  have hf0 : (0 : ℚ) < f := lt_trans (by norm_num) hf1
  have hwf : (w : ℚ) * f = (t : ℚ) := by
    rw [hf]
    field_simp
  set x1 : ℤ := pyRound ((x : ℚ) * f) with hx1
  have hb1 : |(x1 : ℚ) - (x : ℚ) * f| ≤ 1 / 2 := pyRound_near _
  have hxQ : (x : ℚ) ≤ (w : ℚ) - 1 := by
    have hx' : x + 1 ≤ (w : ℤ) := hx
    have : ((x : ℚ) + 1) ≤ (w : ℚ) := by exact_mod_cast hx'
    linarith
  have hq1 : (x : ℚ) * f ≤ ((w : ℚ) - 1) * f :=
    mul_le_mul_of_nonneg_right hxQ (le_of_lt hf0)
  have hr : ((w : ℚ) - 1) * f = (w : ℚ) * f - f := by ring
  have hup : (x1 : ℚ) ≤ (x : ℚ) * f + 1 / 2 := by
    have h := (abs_le.mp hb1).2
    linarith
  have hx1t : (x1 : ℚ) < (t : ℚ) := by linarith
  have hx1w : x1 ≤ (w : ℤ) := by
    have h' : (x1 : ℚ) < (w : ℚ) := lt_of_lt_of_le hx1t htw
    have : x1 < (w : ℤ) := by exact_mod_cast h'
    exact le_of_lt this
  refine ⟨hx1w, ?_⟩
  set q2 : ℚ := (x1 : ℚ) / f with hq2d
  set x2 : ℤ := pyRound q2 with hx2
  have hb2 : |(x2 : ℚ) - q2| ≤ 1 / 2 := pyRound_near _
  have hq2x : |q2 - (x : ℚ)| < 1 := by
    have hne : f ≠ 0 := ne_of_gt hf0
    have hrw : q2 - (x : ℚ) = ((x1 : ℚ) - (x : ℚ) * f) / f := by
      rw [hq2d]
      field_simp
      ring
    rw [hrw, abs_div, abs_of_pos hf0, div_lt_one hf0]
    exact lt_of_le_of_lt hb1 hf1
  have habs : |(x2 : ℚ) - (x : ℚ)| < 3 / 2 := by
    have htri := abs_sub_le (x2 : ℚ) q2 (x : ℚ)
    linarith
  have hcast : |((x2 - x : ℤ) : ℚ)| < 3 / 2 := by
    push_cast
    exact habs
  have h2 : |x2 - x| < 2 := by
    by_contra hcon
    push_neg at hcon
    have : ((2 : ℤ) : ℚ) ≤ ((|x2 - x| : ℤ) : ℚ) := by exact_mod_cast hcon
    rw [Int.cast_abs] at this
    push_cast at this
    have h32 : ((2 : ℚ)) ≤ |((x2 : ℚ)) - (x : ℚ)| := this
    linarith
  exact Int.lt_add_one_iff.mp (by linarith)

/-! ## Claims -/

/-- C1 (amended): scanning the fixed table XGA, WXGA, FWXGA in order, the
first entry whose aspect ratio is within the 0.02 tolerance of the native
aspect ratio is selected when additionally its target width is strictly
smaller than the native width; when no entry matches both conditions the
WXGA 16:10 default is selected. -/
theorem scale_target_first_match (w h : ℕ) (hh : 0 < h) :
    (aspectClose XGAres w h → 1024 < w → selectTargetDimension w h = XGAres) ∧
    (¬aspectClose XGAres w h → aspectClose WXGAres w h → 1280 < w →
      selectTargetDimension w h = WXGAres) ∧
    (¬aspectClose XGAres w h → ¬aspectClose WXGAres w h → aspectClose FWXGAres w h →
      1366 < w → selectTargetDimension w h = FWXGAres) ∧
    ((∀ p ∈ MAX_SCALING_TARGETS, ¬(aspectClose p.2 w h ∧ p.2.width < w)) →
      selectTargetDimension w h = WXGAres) := by
  refine ⟨?_, ?_, ?_, ?_⟩
  · intro hA hw
    unfold selectTargetDimension MAX_SCALING_TARGETS
    rw [List.find?_cons_of_pos _ (by simpa using hA)]
    simp [XGAres, hw]
  · intro hnA hB hw
    unfold selectTargetDimension MAX_SCALING_TARGETS
    rw [List.find?_cons_of_neg _ (by simpa using hnA),
      List.find?_cons_of_pos _ (by simpa using hB)]
    simp [WXGAres, hw]
  · intro hnA hnB hC hw
    unfold selectTargetDimension MAX_SCALING_TARGETS
    rw [List.find?_cons_of_neg _ (by simpa using hnA),
      List.find?_cons_of_neg _ (by simpa using hnB),
      List.find?_cons_of_pos _ (by simpa using hC)]
    simp [FWXGAres, hw]
  · intro hno
    unfold selectTargetDimension
    cases hfind : MAX_SCALING_TARGETS.find? (fun p => decide (aspectClose p.2 w h)) with
    | none => rfl
    | some q =>
      have hmem : q ∈ MAX_SCALING_TARGETS := List.mem_of_find?_eq_some hfind
      have hpa := List.find?_some hfind
      have hcl : aspectClose q.2 w h := of_decide_eq_true hpa
      have hnw : ¬q.2.width < w := fun hlt => hno q hmem ⟨hcl, hlt⟩
      simp [hnw]

/-- C1 witness: a 1920x1080 native display matches no earlier entry, matches
FWXGA's aspect ratio, and is wider than 1366, so FWXGA is selected. -/
theorem scale_target_first_match_witness : selectTargetDimension 1920 1080 = FWXGAres :=
  (scale_target_first_match 1920 1080 (by decide)).2.2.1
    (by with_unfolding_all decide) (by with_unfolding_all decide)
    (by with_unfolding_all decide) (by decide)

/-- C1 counterexample: a native 1024x768 display has exactly XGA's aspect
ratio and width equal (hence `≥`) to XGA's target width 1024, yet the code
selects the WXGA default, not XGA: the width condition of the source is
strict (`dimension.width < self.width`), not `≥`. -/
theorem scale_target_ge_counterexample :
    aspectClose XGAres 1024 768 ∧ 1024 ≤ (1024 : ℕ) ∧
    selectTargetDimension 1024 768 = WXGAres ∧ WXGAres ≠ XGAres := by
  with_unfolding_all decide

/-- C3 (amended): for every in-bounds native coordinate, converting to
logical space (`COMPUTER`) and back (`API`) succeeds and lands within one
unit per axis, provided the chosen target dimension is at most the native
dimension and the native dimension is less than twice the target (per-axis
scaling factor in the interval from one half to one). -/
theorem scale_roundtrip (w h : ℕ) (x y : ℤ) (hw : 0 < w) (hh : 0 < h)
    (hx0 : 0 ≤ x) (hy0 : 0 ≤ y) (hx : x < (w : ℤ)) (hy : y < (h : ℤ))
    (ht1 : (selectTargetDimension w h).width ≤ w)
    (ht2 : w < 2 * (selectTargetDimension w h).width)
    (ht3 : (selectTargetDimension w h).height ≤ h)
    (ht4 : h < 2 * (selectTargetDimension w h).height) :
    ∃ x1 y1 x2 y2,
      scale_coordinates true w h .COMPUTER x y = .ok (x1, y1) ∧
      scale_coordinates true w h .API x1 y1 = .ok (x2, y2) ∧
      |x2 - x| ≤ 1 ∧ |y2 - y| ≤ 1 := by
  obtain ⟨hxw, hxr⟩ :=
    axis_bound (selectTargetDimension w h).width w x hw ht1 ht2 hx0 hx
  obtain ⟨hyw, hyr⟩ :=
    axis_bound (selectTargetDimension w h).height h y hh ht3 ht4 hy0 hy
  refine ⟨pyRound ((x : ℚ) * (((selectTargetDimension w h).width : ℚ) / (w : ℚ))),
    pyRound ((y : ℚ) * (((selectTargetDimension w h).height : ℚ) / (h : ℚ))),
    pyRound ((pyRound ((x : ℚ) * (((selectTargetDimension w h).width : ℚ) / (w : ℚ))) : ℚ) /
      (((selectTargetDimension w h).width : ℚ) / (w : ℚ))),
    pyRound ((pyRound ((y : ℚ) * (((selectTargetDimension w h).height : ℚ) / (h : ℚ))) : ℚ) /
      (((selectTargetDimension w h).height : ℚ) / (h : ℚ))),
    rfl, ?_, hxr, hyr⟩
  have hguard : ¬((w : ℤ) < pyRound ((x : ℚ) * (((selectTargetDimension w h).width : ℚ) / (w : ℚ))) ∨
      (h : ℤ) < pyRound ((y : ℚ) * (((selectTargetDimension w h).height : ℚ) / (h : ℚ)))) := by
    push_neg
    exact ⟨hxw, hyw⟩
  simp only [scale_coordinates, Bool.not_true, Bool.false_eq_true, if_false]
  rw [if_neg hguard]

/-- C3 witness: on a 1920x1080 display (target FWXGA 1366x768, factors
about 0.71) the centre pixel (960, 540) round-trips within one unit. -/
theorem scale_roundtrip_witness :
    ∃ x1 y1 x2 y2,
      scale_coordinates true 1920 1080 .COMPUTER 960 540 = .ok (x1, y1) ∧
      scale_coordinates true 1920 1080 .API x1 y1 = .ok (x2, y2) ∧
      |x2 - 960| ≤ 1 ∧ |y2 - 540| ≤ 1 :=
  scale_roundtrip 1920 1080 960 540 (by decide) (by decide) (by decide) (by decide)
    (by decide) (by decide) (by with_unfolding_all decide) (by with_unfolding_all decide)
    (by with_unfolding_all decide) (by with_unfolding_all decide)

/-- C3 counterexample: a 4096x2560 native display selects the WXGA target
(factor 5/16 per axis).  The in-bounds native coordinate (8, 8) scales down
to (2, 2) and back to (6, 6), two units away from the original on each axis,
so the claimed universal one-unit round-trip bound is false. -/
theorem scale_roundtrip_counterexample :
    (0 : ℤ) ≤ 8 ∧ (8 : ℤ) < 4096 ∧ (8 : ℤ) < 2560 ∧
    scale_coordinates true 4096 2560 .COMPUTER 8 8 = .ok (2, 2) ∧
    scale_coordinates true 4096 2560 .API 2 2 = .ok (6, 6) ∧
    ¬|(6 : ℤ) - 8| ≤ 1 := by
  with_unfolding_all decide

/-- C5: with scaling enabled, the logical-to-native conversion (`API`
source) fails exactly when the input logical coordinate exceeds the native
width or height — the check happens on the input, before the inverse
scaling — and the boundary coordinate (width - 1, height - 1) succeeds. -/
theorem api_bounds_check (w h : ℕ) (x y : ℤ) (hw : 0 < w) (hh : 0 < h) :
    ((scale_coordinates true w h .API x y).isOk = true ↔ x ≤ (w : ℤ) ∧ y ≤ (h : ℤ)) ∧
    ∃ p, scale_coordinates true w h .API ((w : ℤ) - 1) ((h : ℤ) - 1) = .ok p := by
  constructor
  · by_cases hb : (w : ℤ) < x ∨ (h : ℤ) < y
    · rcases hb with hb | hb <;>
        simp [scale_coordinates, Except.isOk, Except.toBool, hb]
    · push_neg at hb
      simp [scale_coordinates, Except.isOk, Except.toBool, not_or.mpr
        ⟨not_lt.mpr hb.1, not_lt.mpr hb.2⟩, hb.1, hb.2]
  · have hg : ¬((w : ℤ) < (w : ℤ) - 1 ∨ (h : ℤ) < (h : ℤ) - 1) := by
      push_neg
      omega
    refine ⟨(pyRound ((((w : ℤ) - 1 : ℤ) : ℚ) /
        (((selectTargetDimension w h).width : ℚ) / (w : ℚ))),
      pyRound ((((h : ℤ) - 1 : ℤ) : ℚ) /
        (((selectTargetDimension w h).height : ℚ) / (h : ℚ)))), ?_⟩
    simp only [scale_coordinates, Bool.not_true, Bool.false_eq_true, if_false]
    rw [if_neg hg]

/-- C5 witness: on a 1920x1080 display, (100, 100) is accepted and the
boundary coordinate (1919, 1079) succeeds. -/
theorem api_bounds_check_witness :
    ((scale_coordinates true 1920 1080 .API 100 100).isOk = true ↔
      (100 : ℤ) ≤ 1920 ∧ (100 : ℤ) ≤ 1080) ∧
    ∃ p, scale_coordinates true 1920 1080 .API 1919 1079 = .ok p :=
  api_bounds_check 1920 1080 100 100 (by decide) (by decide)

/-- C10: with scaling disabled both conversion directions are the identity
and never raise, and an out-of-bounds error occurs exactly when scaling is
enabled, the source is API, and the x or y input exceeds the native width
or height. -/
theorem scaling_disabled_identity (w h : ℕ) (source : ScalingSource) (x y : ℤ)
    (hw : 0 < w) (hh : 0 < h) :
    scale_coordinates false w h source x y = .ok (x, y) ∧
    ∀ e : Bool, ((scale_coordinates e w h source x y).isOk = false ↔
      e = true ∧ source = .API ∧ ((w : ℤ) < x ∨ (h : ℤ) < y)) := by
  constructor
  · rfl
  · intro e
    cases e with
    | false => simp [scale_coordinates, Except.isOk, Except.toBool]
    | true =>
      cases source with
      | COMPUTER => simp [scale_coordinates, Except.isOk, Except.toBool]
      | API =>
        by_cases hb : (w : ℤ) < x ∨ (h : ℤ) < y <;>
          simp [scale_coordinates, Except.isOk, Except.toBool, hb]

/-- C10 witness: with scaling disabled, the far out-of-bounds logical
coordinate (5000, 0) passes through unchanged on a 1920x1080 display; with
scaling enabled the same call errors. -/
theorem scaling_disabled_identity_witness :
    scale_coordinates false 1920 1080 .API 5000 0 = .ok (5000, 0) ∧
    ∀ e : Bool, ((scale_coordinates e 1920 1080 .API 5000 0).isOk = false ↔
      e = true ∧ ScalingSource.API = .API ∧ ((1920 : ℤ) < 5000 ∨ (1080 : ℤ) < 0)) :=
  scaling_disabled_identity 1920 1080 .API 5000 0 (by decide) (by decide)

/-- A monitor-backed tool configuration (no ADB device bound), 1920x1080,
scaling on, zero offsets, no injected failures. -/
def monitorCfg : ToolConfig := ⟨false, true, 1920, 1080, 0, 0, (0, 0), fun _ => false⟩

/-- An ADB-backed tool configuration, 1920x1080 device, scaling on. -/
def adbCfg : ToolConfig := ⟨true, true, 1920, 1080, 0, 0, (0, 0), fun _ => false⟩

/-- A monitor-backed configuration whose `pyautogui.keyDown("shift")` call
raises. -/
def shiftFailCfg : ToolConfig := ⟨false, true, 1920, 1080, 0, 0, (0, 0), fun k => k == "shift"⟩

/-- C2 (code bug): `right_click`, `middle_click` and `double_click` with no
text and no coordinate raise the "... not supported for ADB devices"
ToolError on BOTH backends — the raise is not guarded by
`self._adb_device is not None`, so the native (monitor) backend fails too,
contradicting the error message's own wording; no backend call is issued. -/
theorem click_variants_fail_both_backends :
    toolCall monitorCfg (0, 0) "right_click" none none =
      (.toolError ("right_click not supported for ADB devices"), (0, 0), []) ∧
    toolCall monitorCfg (0, 0) "middle_click" none none =
      (.toolError ("middle_click not supported for ADB devices"), (0, 0), []) ∧
    toolCall monitorCfg (0, 0) "double_click" none none =
      (.toolError ("double_click not supported for ADB devices"), (0, 0), []) ∧
    toolCall adbCfg (0, 0) "right_click" none none =
      (.toolError ("right_click not supported for ADB devices"), (0, 0), []) :=
  ⟨rfl, rfl, rfl, rfl⟩

/-- C4 (code bug): the native `key` action "ctrl+shift+t" whose
`keyDown("shift")` injection raises aborts after pressing "ctrl"; the
release loop never runs, so "ctrl" remains held when the error surfaces. -/
theorem stuck_key_on_failed_combination :
    toolCall shiftFailCfg (0, 0) "key" (some "ctrl+shift+t") none =
      (.pyError ("keyDown failed"), (0, 0), [.keyDown "ctrl"]) ∧
    heldKeys (toolCall shiftFailCfg (0, 0) "key" (some "ctrl+shift+t") none).2.2 =
      ["ctrl"] ∧ (["ctrl"] : List String) ≠ [] := by
  with_unfolding_all decide

/-- C6 (code bug): a valid `left_click_drag` to logical (683, 384) on the
ADB backend issues the swipe from the tracked pointer position (initially
(0, 0)) to the scaled native target (960, 540) and updates the tracked
position — but then raises an UnboundLocalError instead of returning the
confirmation output, because the confirmation string reads
`current_x`/`current_y`, which only the desktop branch assigns. -/
theorem adb_drag_unbound_local :
    toolCall adbCfg (0, 0) "left_click_drag" none (some [683, 384]) =
      (.pyError ("UnboundLocalError: local variable current_x referenced before assignment"),
        (960, 540), [.swipe 0 0 960 540]) := by
  with_unfolding_all decide

/-- C7: the dispatcher rejects `mouse_move` with no coordinate and
`left_click` with any coordinate supplied, each with a ToolError naming the
field, before any backend call (empty trace) and with the pointer state
unchanged; `screenshot` with neither field is accepted. -/
theorem dispatcher_validation (cfg : ToolConfig) (st : ℤ × ℤ) :
    toolCall cfg st "mouse_move" none none =
      (.toolError ("coordinate is required for mouse_move"), st, []) ∧
    (∀ c : List ℤ, toolCall cfg st "left_click" none (some c) =
      (.toolError ("coordinate is not accepted for left_click"), st, [])) ∧
    toolCall cfg st "screenshot" none none = (.screenshotTaken, st, [.screenshotCall]) :=
  ⟨rfl, fun _ => rfl, rfl⟩

/-- C8: enumerating a single OS-primary monitor yields exactly one Display
with layout role "Left" (the `i == 0` branch wins) marked "Primary", with
primary index 0; enumerating three monitors already at ascending x
positions yields layout roles Left, Center, Right in index order. -/
theorem registry_layout_roles (m m0 m1 m2 : Monitor) (hp : m.is_primary = true)
    (h01 : m0.x ≤ m1.x) (h12 : m1.x ≤ m2.x) :
    get_screen_details (.ok [m]) (.ok []) =
      .ok ([⟨0, none, .MONITOR, ⟨m.width, m.height⟩, some "Left", some "Primary"⟩], 0) ∧
    ∃ pr, get_screen_details (.ok [m0, m1, m2]) (.ok []) = .ok pr ∧
      pr.1.map Screen.layout = [some "Left", some "Center", some "Right"] := by
  constructor
  · simp [get_screen_details, List.insertionSort, List.orderedInsert, layoutFor, hp,
      List.enum, List.enumFrom]
  · have hsort : List.insertionSort monitorLE [m0, m1, m2] = [m0, m1, m2] := by
      simp [List.insertionSort, List.orderedInsert, monitorLE, h01, h12]
    simp only [get_screen_details, hsort]
    refine ⟨_, rfl, ?_⟩
    simp [List.enum, List.enumFrom, layoutFor]

/-- C8 witness: a concrete single primary monitor and three concrete
ascending monitors. -/
theorem registry_layout_roles_witness :
    get_screen_details (.ok [⟨0, 0, 1920, 1080, true⟩]) (.ok []) =
      .ok ([⟨0, none, .MONITOR, ⟨1920, 1080⟩, some "Left", some "Primary"⟩], 0) ∧
    ∃ pr, get_screen_details
        (.ok [⟨0, 0, 800, 600, true⟩, ⟨800, 0, 800, 600, false⟩, ⟨1600, 0, 800, 600, false⟩])
        (.ok []) = .ok pr ∧
      pr.1.map Screen.layout = [some "Left", some "Center", some "Right"] :=
  registry_layout_roles ⟨0, 0, 1920, 1080, true⟩ ⟨0, 0, 800, 600, true⟩
    ⟨800, 0, 800, 600, false⟩ ⟨1600, 0, 800, 600, false⟩ (by decide) (by decide) (by decide)

/-- C9 (amended): `get_screen_details` fails exactly when the native
monitor enumeration fails or the unguarded ADB device query raises; when
the device query succeeds with zero devices, the result carries exactly the
native entries — zero additional remote entries — and no error. -/
theorem registry_error_propagation (mE : Except String (List Monitor))
    (aE : Except String (List AdbDeviceInfo)) (ms : List Monitor) :
    ((get_screen_details mE aE).isOk = (mE.isOk && aE.isOk)) ∧
    ∃ pr, get_screen_details (.ok ms) (.ok []) = .ok pr ∧
      pr.1.length = ms.length ∧ ∀ s ∈ pr.1, s.type_ = ScreenType.MONITOR := by
  constructor
  · cases mE <;> cases aE <;> simp [get_screen_details, Except.isOk, Except.toBool]
  · simp only [get_screen_details]
    refine ⟨_, rfl, ?_, ?_⟩
    · simp [List.length_insertionSort]
    · intro s hs
      simp only [List.map_nil, List.append_nil, List.mem_map] at hs
      obtain ⟨p, _, hp⟩ := hs
      rw [← hp]

/-- C9 witness: two concrete native monitors with a healthy empty device
query: the enumeration succeeds with exactly the two native entries. -/
theorem registry_error_propagation_witness :
    ((get_screen_details (.ok [(⟨0, 0, 1920, 1080, true⟩ : Monitor)])
        (.error "connection refused")).isOk =
      (((.ok [(⟨0, 0, 1920, 1080, true⟩ : Monitor)] : Except String (List Monitor))).isOk &&
        ((.error "connection refused" : Except String (List AdbDeviceInfo))).isOk)) ∧
    ∃ pr, get_screen_details
        (.ok [(⟨0, 0, 1920, 1080, true⟩ : Monitor), ⟨1920, 0, 800, 600, false⟩]) (.ok []) =
        .ok pr ∧
      pr.1.length = [(⟨0, 0, 1920, 1080, true⟩ : Monitor), ⟨1920, 0, 800, 600, false⟩].length ∧
      ∀ s ∈ pr.1, s.type_ = ScreenType.MONITOR :=
  registry_error_propagation (.ok [⟨0, 0, 1920, 1080, true⟩]) (.error "connection refused")
    [⟨0, 0, 1920, 1080, true⟩, ⟨1920, 0, 800, 600, false⟩]

/-- C9 counterexample: with one healthy native monitor but an ADB device
query that raises (unreachable endpoint), `get_screen_details` propagates
the error instead of returning the native entries — the claim that only a
native-enumeration failure can fail the call is false. -/
theorem registry_adb_error_counterexample :
    get_screen_details (.ok [⟨0, 0, 1920, 1080, true⟩]) (.error "connection refused") =
      .error "connection refused" := by
  with_unfolding_all decide

end ComputerUseOotb
